import Mathlib

/-
Verification of the paren-spacing checker (`no-space-in-parens` rule).

The rule performs a single left-to-right scan over the host's
`tokensAndComments` stream and, for each `(` / `)` punctuator, decides via
four adjacency predicates whether a space must be inserted or deleted,
subject to a configurable exception set and a special case for a lone
string literal between parens.

Modelling conventions:
  * a token is a record of its type tag (the host's strings "Punctuator",
    "String", "Line", "Block", "Identifier", ...), its literal text, its
    character range `[rstart, rend)` into the source text, and its
    line/column location;
  * the source text is an explicit `List Char`;
  * the host helper `isSpaceBetweenTokens` (modelled from the spec: the
    host's SourceCode API, not part of this repository) tests whether any
    whitespace character occurs strictly between the two tokens' ranges;
  * the host helper `isTokenOnSameLine` (modelled from the spec: the
    ast-utils module, not part of this repository) compares the end line
    of the left token with the start line of the right token;
  * a JavaScript property access on `undefined` (out-of-bounds stream
    index) is a crash; fallible computations return `Option`, with `none`
    meaning the scan threw a TypeError at that point.  Diagnostics emitted
    before a crash were already delivered to the host, so the scan result
    keeps them and records the crash in a flag.
-/

namespace NoSpaceInParens

/-- Token record as supplied by the host tokenizer: type tag, literal
text, character range, and line/column location. -/
structure Token where
  ttype : String
  value : String
  rstart : Nat
  rend : Nat
  lineStart : Nat
  colStart : Nat
  lineEnd : Nat
  colEnd : Nat
deriving DecidableEq, Repr

/-- ExceptionSet flags together with the global mode, as computed from the
rule options (`ALWAYS` and the `options` object of the source). -/
structure Options where
  always : Bool
  braceException : Bool
  bracketException : Bool
  parenException : Bool
  parenStringException : Bool
  empty : Bool
deriving DecidableEq, Repr

/-- Derived opener/closer exception token values (result of
`getExceptions`). -/
structure Exceptions where
  openers : List String
  closers : List String
deriving DecidableEq, Repr

/-- Embedding of `getExceptions`: pushes the exception token values in the
source's order, one pair per enabled flag. -/
def getExceptions (o : Options) : Exceptions :=
  { openers :=
      (if o.braceException then ["\x7b"] else []) ++
      (if o.bracketException then ["["] else []) ++
      (if o.parenException then ["("] else []) ++
      (if o.empty then [")"] else [])
  , closers :=
      (if o.braceException then ["\x7d"] else []) ++
      (if o.bracketException then ["]"] else []) ++
      (if o.parenException then [")"] else []) ++
      (if o.empty then ["("] else []) }

/-- Modelled from the spec: the host SourceCode API's
`isSpaceBetweenTokens` (not part of this repository).  True when a
whitespace character occurs in the source text strictly between the end of
the left token and the start of the right token.  Between adjacent entries
of the comment-inclusive token stream the gap text is whitespace only, so
this is the behaviour the rule observes. -/
def isSpaceBetweenTokens (text : List Char) (l r : Token) : Bool :=
  ((text.drop l.rend).take (r.rstart - l.rend)).any Char.isWhitespace

/-- Modelled from the spec: the ast-utils helper `isTokenOnSameLine` (not
part of this repository): the end line of the left token equals the start
line of the right token. -/
def isTokenOnSameLine (l r : Token) : Bool :=
  decide (l.lineEnd = r.lineStart)

/-- Embedding of `isOpenerException` (a non-negative `indexOf` is list
membership). -/
def isOpenerException (exc : Exceptions) (t : Token) : Bool :=
  decide (t.ttype = "Punctuator" ∧ t.value ∈ exc.openers)

/-- Embedding of `isCloserException` (a non-negative `indexOf` is list
membership). -/
def isCloserException (exc : Exceptions) (t : Token) : Bool :=
  decide (t.ttype = "Punctuator" ∧ t.value ∈ exc.closers)

/-- Embedding of `shouldOpenerHaveSpace`. -/
def shouldOpenerHaveSpace (always : Bool) (exc : Exceptions) (text : List Char)
    (l r : Token) : Bool :=
  if isSpaceBetweenTokens text l r then false
  else if always then
    (if r.ttype = "Punctuator" ∧ r.value = ")" then false
     else !(isOpenerException exc r))
  else isOpenerException exc r

/-- Embedding of `shouldCloserHaveSpace`. -/
def shouldCloserHaveSpace (always : Bool) (exc : Exceptions) (text : List Char)
    (l r : Token) : Bool :=
  if l.ttype = "Punctuator" ∧ l.value = "(" then false
  else if isSpaceBetweenTokens text l r then false
  else if always then !(isCloserException exc l)
  else isCloserException exc l

/-- Embedding of `shouldOpenerRejectSpace`. -/
def shouldOpenerRejectSpace (always : Bool) (exc : Exceptions) (text : List Char)
    (l r : Token) : Bool :=
  if r.ttype = "Line" then false
  else if !(isTokenOnSameLine l r) then false
  else if !(isSpaceBetweenTokens text l r) then false
  else if always then isOpenerException exc r
  else !(isOpenerException exc r)

/-- Embedding of `shouldCloserRejectSpace`. -/
def shouldCloserRejectSpace (always : Bool) (exc : Exceptions) (text : List Char)
    (l r : Token) : Bool :=
  if l.ttype = "Punctuator" ∧ l.value = "(" then false
  else if !(isTokenOnSameLine l r) then false
  else if !(isSpaceBetweenTokens text l r) then false
  else if always then isCloserException exc l
  else !(isCloserException exc l)

/-- Message kinds of the three fixed report templates. -/
inductive MessageKind where
  | missingSpace
  | rejectedSpace
  | unnecessaryStringSpace
deriving DecidableEq, Repr

/-- Textual edit attached to a diagnostic: insert one space character at
an offset (`insertTextAfter`/`insertTextBefore` with a single space), or
delete the character range `[a, b)` (`removeRange`). -/
inductive FixEdit where
  | insert (pos : Nat)
  | remove (a b : Nat)
deriving DecidableEq, Repr

/-- Diagnostic as handed to the host: report location (line/column), the
message kind, and the fix edit. -/
structure Diagnostic where
  locLine : Nat
  locCol : Nat
  kind : MessageKind
  fix : FixEdit
deriving DecidableEq, Repr

/-- Embedding of `checkStringInParen`: one `UnnecessaryStringSpace`
diagnostic per whitespace-bearing gap of the `(`, String, `)` triple,
located at the start of the token on the right of the gap, fixing by
deleting exactly the gap's character range. -/
def checkStringInParen (text : List Char) (prev token next : Token) :
    List Diagnostic :=
  (if isSpaceBetweenTokens text prev token then
    [{ locLine := token.lineStart, locCol := token.colStart,
       kind := MessageKind.unnecessaryStringSpace,
       fix := FixEdit.remove prev.rend token.rstart }]
   else []) ++
  (if isSpaceBetweenTokens text token next then
    [{ locLine := next.lineStart, locCol := next.colStart,
       kind := MessageKind.unnecessaryStringSpace,
       fix := FixEdit.remove token.rend next.rstart }]
   else [])

/-- Lookup of `tokens[i - k]` with JavaScript semantics: a negative index
yields `undefined` (here `none`), as does an index past the end. -/
def tokBack? (tokens : List Token) (i k : Nat) : Option Token :=
  if k ≤ i then tokens[i - k]? else none

/-- First disjunct of `stringInParenAlreadyChecked`, with JavaScript
short-circuit evaluation: accessing a property of an out-of-bounds token
is a crash (`none`). -/
def sipDisj1 (tokens : List Token) (i : Nat) (t : Token) : Option Bool :=
  if t.ttype = "Punctuator" ∧ t.value = "(" then
    match tokens[i + 1]? with
    | none => none
    | some t1 =>
      if t1.ttype = "String" then
        match tokens[i + 2]? with
        | none => none
        | some t2 => some (decide (t2.value = ")"))
      else some false
  else some false

/-- Second disjunct of `stringInParenAlreadyChecked`. -/
def sipDisj2 (tokens : List Token) (i : Nat) (t : Token) : Option Bool :=
  if t.ttype = "String" then
    match tokBack? tokens i 1 with
    | none => none
    | some p =>
      if p.value = "(" then
        match tokens[i + 1]? with
        | none => none
        | some n => some (decide (n.value = ")"))
      else some false
  else some false

/-- Third disjunct of `stringInParenAlreadyChecked`. -/
def sipDisj3 (tokens : List Token) (i : Nat) (t : Token) : Option Bool :=
  if t.ttype = "Punctuator" ∧ t.value = ")" then
    match tokBack? tokens i 1 with
    | none => none
    | some p1 =>
      if p1.ttype = "String" then
        match tokBack? tokens i 2 with
        | none => none
        | some p2 => some (decide (p2.ttype = "Punctuator" ∧ p2.value = "("))
      else some false
  else some false

/-- Embedding of `stringInParenAlreadyChecked` (`t` is `tokens[i]`, the
token the surrounding `forEach` is visiting): disjunction of the three
lookaround patterns, with JavaScript short-circuit and crash semantics. -/
def stringInParenAlreadyChecked (tokens : List Token) (i : Nat) (t : Token) :
    Option Bool :=
  match sipDisj1 tokens i t with
  | none => none
  | some true => some true
  | some false =>
    match sipDisj2 tokens i t with
    | none => none
    | some true => some true
    | some false => sipDisj3 tokens i t

/-- Body of the `forEach` callback from the `stringInParenAlreadyChecked`
guard on: skip checks, then the general paren-adjacency chain reporting at
most one diagnostic. -/
def scanStepRest (o : Options) (exc : Exceptions) (text : List Char)
    (tokens : List Token) (i : Nat) (token : Token) : Option (List Diagnostic) :=
  match (if o.parenStringException then stringInParenAlreadyChecked tokens i token
         else some false) with
  | none => none
  | some true => some []
  | some false =>
    if token.ttype ≠ "Punctuator" then some []
    else if token.value ≠ "(" ∧ token.value ≠ ")" then some []
    else if token.value = "(" then
      match tokens[i + 1]? with
      | none => none
      | some next =>
        if shouldOpenerHaveSpace o.always exc text token next then
          some [{ locLine := token.lineStart, locCol := token.colStart,
                  kind := MessageKind.missingSpace,
                  fix := FixEdit.insert token.rend }]
        else if shouldOpenerRejectSpace o.always exc text token next then
          some [{ locLine := token.lineStart, locCol := token.colStart,
                  kind := MessageKind.rejectedSpace,
                  fix := FixEdit.remove token.rend next.rstart }]
        else some []
    else
      match tokBack? tokens i 1 with
      | none => none
      | some prev =>
        if shouldCloserHaveSpace o.always exc text prev token then
          some [{ locLine := token.lineStart, locCol := token.colStart,
                  kind := MessageKind.missingSpace,
                  fix := FixEdit.insert token.rstart }]
        else if shouldCloserRejectSpace o.always exc text prev token then
          some [{ locLine := token.lineStart, locCol := token.colStart,
                  kind := MessageKind.rejectedSpace,
                  fix := FixEdit.remove prev.rend token.rstart }]
        else some []

/-- Full body of the `forEach` callback at index `i` visiting `token`:
the `(`, String, `)` dispatch first (crashing when its lookarounds
dereference a missing neighbour), then `scanStepRest`. -/
def scanStep (o : Options) (exc : Exceptions) (text : List Char)
    (tokens : List Token) (i : Nat) (token : Token) : Option (List Diagnostic) :=
  if o.parenStringException ∧ token.ttype = "String" then
    match tokBack? tokens i 1 with
    | none => none
    | some prev =>
      if prev.ttype = "Punctuator" then
        match tokens[i + 1]? with
        | none => none
        | some next =>
          if next.ttype = "Punctuator" ∧ prev.value = "(" ∧ next.value = ")" then
            some (checkStringInParen text prev token next)
          else scanStepRest o exc text tokens i token
      else scanStepRest o exc text tokens i token
  else scanStepRest o exc text tokens i token

/-- Result of one scan: the diagnostics delivered to the host in source
order, and whether the scan aborted with a TypeError.  Diagnostics
reported before a crash are kept. -/
structure ScanResult where
  diags : List Diagnostic
  crashed : Bool
deriving DecidableEq, Repr

/-- Scan loop over the remaining suffix of the token stream; `i` is the
index of the suffix head within the full stream. -/
def scanGo (o : Options) (exc : Exceptions) (text : List Char)
    (tokens : List Token) : Nat → List Token → ScanResult
  | _, [] => { diags := [], crashed := false }
  | i, t :: rest =>
    match scanStep o exc text tokens i t with
    | none => { diags := [], crashed := true }
    | some ds =>
      { diags := ds ++ (scanGo o exc text tokens (i + 1) rest).diags,
        crashed := (scanGo o exc text tokens (i + 1) rest).crashed }

/-- Embedding of the `Program` handler `checkParenSpaces`: compute the
derived exception sets once, then fold the callback over the full
comment-inclusive token stream. -/
def runScan (o : Options) (text : List Char) (tokens : List Token) : ScanResult :=
  scanGo o (getExceptions o) text tokens 0 tokens

/-- Application of a sorted, non-overlapping fix list to the source text,
as the host's fixer does: `pos` is the cursor into the original text. -/
def applyFixesFrom (text : List Char) : Nat → List FixEdit → List Char
  | pos, [] => text.drop pos
  | pos, FixEdit.insert p :: rest =>
    ((text.drop pos).take (p - pos)) ++ ' ' :: applyFixesFrom text p rest
  | pos, FixEdit.remove a b :: rest =>
    ((text.drop pos).take (a - pos)) ++ applyFixesFrom text b rest

/-- Application of all fixes of one scan to the source text. -/
def applyFixes (text : List Char) (fixes : List FixEdit) : List Char :=
  applyFixesFrom text 0 fixes

/-
Concrete configurations and token streams used by the closed theorems.
The token streams are modelled from the spec: they are the output of the
external tokenizer (a collaborator that is not part of this repository)
on the concrete scenario sources, written down by hand.
-/

/-- Mode Always with no exceptions. -/
def oAlways : Options := ⟨true, false, false, false, false, false⟩

/-- Mode Never with no exceptions. -/
def oNever : Options := ⟨false, false, false, false, false, false⟩

/-- Mode Always with the paren (nested `()`) exception. -/
def oAlwaysParen : Options := ⟨true, false, false, true, false, false⟩

/-- Mode Always with the lone-string exception. -/
def oSTRalways : Options := ⟨true, false, false, false, true, false⟩

/-- Mode Never with the lone-string exception. -/
def oSTRnever : Options := ⟨false, false, false, false, true, false⟩

/-- Source text of the empty tight pair scenario. -/
def textPairTight : List Char := "()".toList

/-- Opening paren of the empty tight pair. -/
def tokPTOpen : Token := ⟨"Punctuator", "(", 0, 1, 1, 0, 1, 1⟩

/-- Closing paren of the empty tight pair. -/
def tokPTClose : Token := ⟨"Punctuator", ")", 1, 2, 1, 1, 1, 2⟩

/-- Modelled from the spec: tokenization of the empty tight pair. -/
def toksPairTight : List Token := [tokPTOpen, tokPTClose]

/-- Source text of the spaced empty pair scenario. -/
def textPairSpace : List Char := "( )".toList

/-- Modelled from the spec: tokenization of the spaced empty pair. -/
def toksPairSpace : List Token :=
  [⟨"Punctuator", "(", 0, 1, 1, 0, 1, 1⟩,
   ⟨"Punctuator", ")", 2, 3, 1, 2, 1, 3⟩]

/-- Opening paren of the tight identifier scenario. -/
def tokIdOpen : Token := ⟨"Punctuator", "(", 0, 1, 1, 0, 1, 1⟩

/-- Identifier of the tight identifier scenario. -/
def tokIdA : Token := ⟨"Identifier", "a", 1, 2, 1, 1, 1, 2⟩

/-- Closing paren of the tight identifier scenario. -/
def tokIdClose : Token := ⟨"Punctuator", ")", 2, 3, 1, 2, 1, 3⟩

/-- Source text of the tight identifier scenario. -/
def textIdTight : List Char := "(a)".toList

/-- Modelled from the spec: tokenization of the tight identifier pair. -/
def toksIdTight : List Token := [tokIdOpen, tokIdA, tokIdClose]

/-- Source text of the spaced identifier scenario. -/
def textIdSpace : List Char := "( a )".toList

/-- Modelled from the spec: tokenization of the spaced identifier pair. -/
def toksIdSpace : List Token :=
  [⟨"Punctuator", "(", 0, 1, 1, 0, 1, 1⟩,
   ⟨"Identifier", "a", 2, 3, 1, 2, 1, 3⟩,
   ⟨"Punctuator", ")", 4, 5, 1, 4, 1, 5⟩]

/-- Source text of the nested paren scenario. -/
def textNested : List Char := "((a))".toList

/-- Modelled from the spec: tokenization of the nested paren scenario. -/
def toksNested : List Token :=
  [⟨"Punctuator", "(", 0, 1, 1, 0, 1, 1⟩,
   ⟨"Punctuator", "(", 1, 2, 1, 1, 1, 2⟩,
   ⟨"Identifier", "a", 2, 3, 1, 2, 1, 3⟩,
   ⟨"Punctuator", ")", 3, 4, 1, 3, 1, 4⟩,
   ⟨"Punctuator", ")", 4, 5, 1, 4, 1, 5⟩]

/-- Source text of the fixed nested paren scenario. -/
def textNestedFixed : List Char := "(( a ))".toList

/-- Modelled from the spec: tokenization of the fixed nested scenario. -/
def toksNestedFixed : List Token :=
  [⟨"Punctuator", "(", 0, 1, 1, 0, 1, 1⟩,
   ⟨"Punctuator", "(", 1, 2, 1, 1, 1, 2⟩,
   ⟨"Identifier", "a", 3, 4, 1, 3, 1, 4⟩,
   ⟨"Punctuator", ")", 5, 6, 1, 5, 1, 6⟩,
   ⟨"Punctuator", ")", 6, 7, 1, 6, 1, 7⟩]

/-- Source text of the tight lone-string scenario. -/
def textFooTight : List Char := "(\"foo\")".toList

/-- Modelled from the spec: tokenization of the tight lone-string pair. -/
def toksFooTight : List Token :=
  [⟨"Punctuator", "(", 0, 1, 1, 0, 1, 1⟩,
   ⟨"String", "\"foo\"", 1, 6, 1, 1, 1, 6⟩,
   ⟨"Punctuator", ")", 6, 7, 1, 6, 1, 7⟩]

/-- Opening paren of the spaced lone-string scenario. -/
def tokFSOpen : Token := ⟨"Punctuator", "(", 0, 1, 1, 0, 1, 1⟩

/-- String literal of the spaced lone-string scenario. -/
def tokFSStr : Token := ⟨"String", "\"foo\"", 2, 7, 1, 2, 1, 7⟩

/-- Closing paren of the spaced lone-string scenario. -/
def tokFSClose : Token := ⟨"Punctuator", ")", 8, 9, 1, 8, 1, 9⟩

/-- Source text of the spaced lone-string scenario. -/
def textFooSpaced : List Char := "( \"foo\" )".toList

/-- Modelled from the spec: tokenization of the spaced lone-string pair. -/
def toksFooSpaced : List Token := [tokFSOpen, tokFSStr, tokFSClose]

/-- Source text whose first token is a string literal (a directive
statement, a well-formed program). -/
def textLoneString : List Char := "\"foo\";".toList

/-- Modelled from the spec: tokenization of the lone leading string. -/
def toksLoneString : List Token :=
  [⟨"String", "\"foo\"", 0, 5, 1, 0, 1, 5⟩,
   ⟨"Punctuator", ";", 5, 6, 1, 5, 1, 6⟩]

/-- Source text of a call with a spaced empty pair. -/
def textEmptySpace : List Char := "a( )".toList

/-- Opening paren of the spaced empty call pair. -/
def tokESOpen : Token := ⟨"Punctuator", "(", 1, 2, 1, 1, 1, 2⟩

/-- Closing paren of the spaced empty call pair. -/
def tokESClose : Token := ⟨"Punctuator", ")", 3, 4, 1, 3, 1, 4⟩

/-- Modelled from the spec: tokenization of the spaced empty call pair. -/
def toksEmptySpace : List Token :=
  [⟨"Identifier", "a", 0, 1, 1, 0, 1, 1⟩, tokESOpen, tokESClose]

/-- Opening paren of the block comment scenario. -/
def tokBCOpen : Token := ⟨"Punctuator", "(", 1, 2, 1, 1, 1, 2⟩

/-- Block comment token of the block comment scenario. -/
def tokBCBlock : Token := ⟨"Block", "/*c*/", 3, 8, 1, 3, 1, 8⟩

/-- Source text of the block comment scenario. -/
def textBlockCmt : List Char := "a( /*c*/)".toList

/-- Modelled from the spec: tokenization of the block comment scenario. -/
def toksBlockCmt : List Token :=
  [⟨"Identifier", "a", 0, 1, 1, 0, 1, 1⟩,
   tokBCOpen,
   tokBCBlock,
   ⟨"Punctuator", ")", 8, 9, 1, 8, 1, 9⟩]

/-- Source text of the line comment scenario. -/
def textLineCmt : List Char := "( // c\na )".toList

/-- Modelled from the spec: tokenization of the line comment scenario. -/
def toksLineCmt : List Token :=
  [⟨"Punctuator", "(", 0, 1, 1, 0, 1, 1⟩,
   ⟨"Line", "// c", 2, 6, 1, 2, 1, 6⟩,
   ⟨"Identifier", "a", 7, 8, 2, 0, 2, 1⟩,
   ⟨"Punctuator", ")", 9, 10, 2, 2, 2, 3⟩]

/-- Source text of the fixed line comment scenario. -/
def textLineCmtFixed : List Char := "( // c\na)".toList

/-- Modelled from the spec: tokenization of the fixed line comment
scenario. -/
def toksLineCmtFixed : List Token :=
  [⟨"Punctuator", "(", 0, 1, 1, 0, 1, 1⟩,
   ⟨"Line", "// c", 2, 6, 1, 2, 1, 6⟩,
   ⟨"Identifier", "a", 7, 8, 2, 0, 2, 1⟩,
   ⟨"Punctuator", ")", 8, 9, 2, 1, 2, 2⟩]

/-- Opening paren of the newline scenario. -/
def tokNlOpen : Token := ⟨"Punctuator", "(", 0, 1, 1, 0, 1, 1⟩

/-- Identifier of the newline scenario, on the second line. -/
def tokNlA : Token := ⟨"Identifier", "a", 2, 3, 2, 0, 2, 1⟩

/-- Source text of the newline scenario. -/
def textNewline : List Char := "(\na )".toList

/-- Modelled from the spec: tokenization of the newline scenario. -/
def toksNewline : List Token :=
  [tokNlOpen, tokNlA, ⟨"Punctuator", ")", 4, 5, 2, 2, 2, 3⟩]

/-- Source text of the fixed newline scenario. -/
def textNewlineFixed : List Char := "(\na)".toList

/-- Modelled from the spec: tokenization of the fixed newline scenario. -/
def toksNewlineFixed : List Token :=
  [tokNlOpen, tokNlA, ⟨"Punctuator", ")", 3, 4, 2, 1, 2, 2⟩]

/-
Helper lemmas about the scan loop.
-/

/-- Diagnostics of one non-crashing step at index `i` appear among the
diagnostics of the scan loop started at index `j ≤ i`, provided the loop
as a whole does not crash. -/
theorem scanGo_sub (o : Options) (exc : Exceptions) (text : List Char)
    (tokens : List Token) (rest : List Token) :
    ∀ (j i : Nat) (tok : Token) (ds : List Diagnostic),
      rest = tokens.drop j → j ≤ i → tokens[i]? = some tok →
      scanStep o exc text tokens i tok = some ds →
      (scanGo o exc text tokens j rest).crashed = false →
      ∀ d ∈ ds, d ∈ (scanGo o exc text tokens j rest).diags := by
  induction rest with
  | nil =>
    intro j i tok ds hdrop hle hget hstep hc d hd
    exfalso
    have hlen : tokens.length ≤ j := List.drop_eq_nil_iff.mp hdrop.symm
    have hnone : tokens[i]? = none := List.getElem?_eq_none (Nat.le_trans hlen hle)
    rw [hnone] at hget
    cases hget
  | cons t rest2 ih =>
    intro j i tok ds hdrop hle hget hstep hc d hd
    have hj : tokens[j]? = some t := by
      have h0 : (tokens.drop j)[0]? = some t := by
        rw [← hdrop]; simp
      rw [List.getElem?_drop] at h0
      simpa using h0
    have hrest : rest2 = tokens.drop (j + 1) := by
      have htl := List.tail_drop tokens j
      rw [← hdrop] at htl
      simpa using htl
    rcases Nat.eq_or_lt_of_le hle with heq | hlt
    · subst heq
      rw [hj] at hget
      injection hget with hget
      subst hget
      simp only [scanGo, hstep]
      simp [hd]
    · cases hstep2 : scanStep o exc text tokens j t with
      | none =>
        exfalso
        simp only [scanGo, hstep2] at hc
        exact Bool.noConfusion hc
      | some ds2 =>
        simp only [scanGo, hstep2] at hc ⊢
        have hmem := ih (j + 1) i tok ds hrest hlt hget hstep hc d hd
        simp [hmem]

/-- Diagnostics of a non-crashing step belong to the diagnostics of the
whole scan, provided the scan does not crash. -/
theorem runScan_reports (o : Options) (text : List Char) (tokens : List Token)
    (i : Nat) (tok : Token) (ds : List Diagnostic)
    (hget : tokens[i]? = some tok)
    (hstep : scanStep o (getExceptions o) text tokens i tok = some ds)
    (hc : (runScan o text tokens).crashed = false) :
    ∀ d ∈ ds, d ∈ (runScan o text tokens).diags :=
  scanGo_sub o (getExceptions o) text tokens tokens 0 i tok ds rfl
    (Nat.zero_le i) hget hstep hc

/-
Claim theorems.
-/

/-- C1.  The claim states that the scan never dereferences out of bounds
at the stream boundaries and never fails.  The code contradicts it: with
the lone-string exception enabled, a string-literal token at the first
stream position makes the scan read the type of the (non-existent)
predecessor, a TypeError.  This theorem evaluates the scan at the failing
input, the well-formed program consisting of a leading string directive:
the scan crashes and delivers no diagnostic. -/
theorem claim1_boundary_crash :
    runScan oSTRnever textLoneString toksLoneString =
      { diags := [], crashed := true } := by decide

/-- Spec-side restatement of the opener needs-space rule, written from
the words of the spec: under Always there is no space, the successor is
not a closing-paren punctuator, and the successor is no opener exception;
under Never there is no space and the successor is an opener exception. -/
def openerNeedsSpaceSpec (always : Bool) (exc : Exceptions) (text : List Char)
    (l r : Token) : Bool :=
  if always then
    !(isSpaceBetweenTokens text l r)
      && !(decide (r.ttype = "Punctuator" ∧ r.value = ")"))
      && !(isOpenerException exc r)
  else
    !(isSpaceBetweenTokens text l r) && isOpenerException exc r

/-- C3.  The opener needs-space predicate of the code agrees with the
spec formula for every pair of adjacent tokens, under both modes. -/
theorem claim3_opener_needs_space (always : Bool) (exc : Exceptions)
    (text : List Char) (l r : Token) :
    shouldOpenerHaveSpace always exc text l r =
      openerNeedsSpaceSpec always exc text l r := by
  unfold shouldOpenerHaveSpace openerNeedsSpaceSpec
  cases always <;>
    by_cases hs : isSpaceBetweenTokens text l r = true <;>
      by_cases hp : r.ttype = "Punctuator" ∧ r.value = ")" <;>
        simp [hs, hp]

/-- Spec-side restatement of the opener rejects-space rule, written from
the words of the spec: a space exists, the tokens share a line, the
successor is not a line comment, and the successor is an opener exception
exactly under Always. -/
def openerRejectsSpaceSpec (always : Bool) (exc : Exceptions) (text : List Char)
    (l r : Token) : Bool :=
  isSpaceBetweenTokens text l r && isTokenOnSameLine l r
    && !(decide (r.ttype = "Line"))
    && (if always then isOpenerException exc r else !(isOpenerException exc r))

/-- C4.  The opener rejects-space predicate of the code agrees with the
spec formula for every pair of adjacent tokens, and in particular a space
spanning a line break after an opening paren is never rejected. -/
theorem claim4_opener_rejects_space (always : Bool) (exc : Exceptions)
    (text : List Char) (l r : Token) :
    shouldOpenerRejectSpace always exc text l r =
      openerRejectsSpaceSpec always exc text l r
    ∧ (isTokenOnSameLine l r = false →
        shouldOpenerRejectSpace always exc text l r = false) := by
  constructor
  · unfold shouldOpenerRejectSpace openerRejectsSpaceSpec
    cases always <;>
      by_cases hl : r.ttype = "Line" <;>
        by_cases ht : isTokenOnSameLine l r = true <;>
          by_cases hs : isSpaceBetweenTokens text l r = true <;>
            simp [hl, ht, hs]
  · intro hsame
    unfold shouldOpenerRejectSpace
    by_cases hl : r.ttype = "Line" <;> simp [hl, hsame]

/-- Witness for C4: in the newline scenario the opening paren and the
identifier are on different lines, so the space is not rejected. -/
theorem claim4_witness :
    shouldOpenerRejectSpace false (getExceptions oNever) textNewline
      tokNlOpen tokNlA = false :=
  (claim4_opener_rejects_space false (getExceptions oNever) textNewline
    tokNlOpen tokNlA).2 (by decide)

/-- C6.  Membership in the derived exception token sets is characterized
flag by flag: braces contribute the brace pair, brackets the bracket
pair, parens the paren pair, and the empty exception contributes the
closing paren to the opener set and the opening paren to the closer set;
with every flag unset both sets are empty. -/
theorem claim6_exception_sets (o : Options) :
    (∀ v, v ∈ (getExceptions o).openers ↔
      (o.braceException = true ∧ v = "\x7b")
        ∨ (o.bracketException = true ∧ v = "[")
        ∨ (o.parenException = true ∧ v = "(")
        ∨ (o.empty = true ∧ v = ")"))
    ∧ (∀ v, v ∈ (getExceptions o).closers ↔
      (o.braceException = true ∧ v = "\x7d")
        ∨ (o.bracketException = true ∧ v = "]")
        ∨ (o.parenException = true ∧ v = ")")
        ∨ (o.empty = true ∧ v = "("))
    ∧ (o.braceException = false → o.bracketException = false →
        o.parenException = false → o.empty = false →
        (getExceptions o).openers = [] ∧ (getExceptions o).closers = []) := by
  obtain ⟨al, br, bk, pa, ps, em⟩ := o
  cases br <;> cases bk <;> cases pa <;> cases em <;>
    simp [getExceptions]

/-- Witness for C6: with every exception flag unset both derived sets are
empty. -/
theorem claim6_witness :
    (getExceptions oNever).openers = [] ∧ (getExceptions oNever).closers = [] :=
  (claim6_exception_sets oNever).2.2 rfl rfl rfl rfl

/-- Closing-paren values never enter the derived opener exception set
when the empty exception is off. -/
theorem openers_no_close_paren (o : Options) (t : Token)
    (hemp : o.empty = false) (ht : t.value = ")") :
    isOpenerException (getExceptions o) t = false := by
  unfold isOpenerException getExceptions
  obtain ⟨al, br, bk, pa, ps, em⟩ := o
  simp only at hemp
  subst hemp
  cases br <;> cases bk <;> cases pa <;> simp [ht]

/-- Both closer-side predicates short-circuit to false when the token
before the closing paren is an opening-paren punctuator. -/
theorem closer_shortcircuit (always : Bool) (exc : Exceptions) (t2 : List Char)
    (l r : Token) (ha : l.ttype = "Punctuator") (hb : l.value = "(") :
    shouldCloserHaveSpace always exc t2 l r = false
    ∧ shouldCloserRejectSpace always exc t2 l r = false := by
  unfold shouldCloserHaveSpace shouldCloserRejectSpace
  simp [ha, hb]

/-- Every successful run of the general adjacency chain yields at most
one diagnostic. -/
theorem scanStepRest_length (o : Options) (exc : Exceptions) (text : List Char)
    (tokens : List Token) (i : Nat) (token : Token) (ds : List Diagnostic)
    (h : scanStepRest o exc text tokens i token = some ds) : ds.length ≤ 1 := by
  unfold scanStepRest at h
  repeat' split at h
  all_goals first
    | exact Option.noConfusion h
    | (injection h with h2; subst h2; simp)

/-- C7.  For every paren token the general adjacency logic emits at most
one diagnostic: the needs-space and rejects-space predicates are mutually
exclusive (one demands the absence of a space, the other its presence),
and the per-token step returns a list of length at most one. -/
theorem claim7_at_most_one :
    (∀ (always : Bool) (exc : Exceptions) (text : List Char) (l r : Token),
       (shouldOpenerHaveSpace always exc text l r = true →
          shouldOpenerRejectSpace always exc text l r = false)
       ∧ (shouldCloserHaveSpace always exc text l r = true →
          shouldCloserRejectSpace always exc text l r = false))
    ∧ (∀ (o : Options) (exc : Exceptions) (text : List Char)
         (tokens : List Token) (i : Nat) (token : Token) (ds : List Diagnostic),
        token.ttype = "Punctuator" →
        scanStep o exc text tokens i token = some ds → ds.length ≤ 1) := by
  constructor
  · intro always exc text l r
    constructor
    · intro h
      unfold shouldOpenerHaveSpace at h
      by_cases hs : isSpaceBetweenTokens text l r = true
      · rw [if_pos hs] at h
        exact absurd h (by simp)
      · simp only [Bool.not_eq_true] at hs
        unfold shouldOpenerRejectSpace
        simp [hs]
    · intro h
      unfold shouldCloserHaveSpace at h
      by_cases hs : isSpaceBetweenTokens text l r = true
      · by_cases hp : l.ttype = "Punctuator" ∧ l.value = "("
        · rw [if_pos hp] at h
          exact absurd h (by simp)
        · rw [if_neg hp, if_pos hs] at h
          exact absurd h (by simp)
      · simp only [Bool.not_eq_true] at hs
        unfold shouldCloserRejectSpace
        simp [hs]
  · intro o exc text tokens i token ds htype h
    unfold scanStep at h
    rw [if_neg (fun hx => by rw [htype] at hx; exact absurd hx.2 (by decide))] at h
    exact scanStepRest_length o exc text tokens i token ds h

/-- Witness for C7: in the tight identifier scenario under Mode Always
the opener demands a space, hence does not reject one, and the step at
the opener emits exactly one diagnostic. -/
theorem claim7_witness :
    shouldOpenerRejectSpace true (getExceptions oAlways) textIdTight
      tokIdOpen tokIdA = false
    ∧ [({ locLine := 1, locCol := 0, kind := MessageKind.missingSpace,
          fix := FixEdit.insert 1 } : Diagnostic)].length ≤ 1 :=
  ⟨(claim7_at_most_one.1 true (getExceptions oAlways) textIdTight
      tokIdOpen tokIdA).1 (by decide),
   claim7_at_most_one.2 oAlways (getExceptions oAlways) textIdTight
     toksIdTight 0 tokIdOpen
     [{ locLine := 1, locCol := 0, kind := MessageKind.missingSpace,
        fix := FixEdit.insert 1 }] rfl (by decide)⟩

/-- C5 counterexample.  The claim as stated is false on the code: in the
spaced empty pair under Mode Never with the empty exception absent, the
scan reports a rejected-space diagnostic at the opening paren of the
pair. -/
theorem claim5_counterexample :
    runScan oNever textEmptySpace toksEmptySpace =
      { diags := [{ locLine := 1, locCol := 1,
                    kind := MessageKind.rejectedSpace,
                    fix := FixEdit.remove 2 3 }],
        crashed := false } := by decide

/-- C5 as amended.  For an empty paren pair with the empty exception
absent: no diagnostic is produced for either paren under Mode Always,
nor under Mode Never when the gap between the parens has no whitespace
or spans a line break; under Mode Never with whitespace between them on
the same source line, the scan reports exactly one rejected-space
diagnostic at the opener and none at the closer (as the counterexample
shows); and the closer-side predicates short-circuit to false whenever
the token before the closing paren is an opening-paren punctuator. -/
theorem claim5_empty_pair (o : Options) (text : List Char) (tokens : List Token)
    (j : Nat) (op cl : Token)
    (hop : tokens[j]? = some op) (hcl : tokens[j + 1]? = some cl)
    (h1 : op.ttype = "Punctuator") (h2 : op.value = "(")
    (h3 : cl.ttype = "Punctuator") (h4 : cl.value = ")")
    (hemp : o.empty = false) :
    ((o.always = true ∨ isSpaceBetweenTokens text op cl = false ∨
        isTokenOnSameLine op cl = false) →
      scanStep o (getExceptions o) text tokens j op = some [])
    ∧ (o.always = false → isSpaceBetweenTokens text op cl = true →
        isTokenOnSameLine op cl = true →
        scanStep o (getExceptions o) text tokens j op =
          some [{ locLine := op.lineStart, locCol := op.colStart,
                  kind := MessageKind.rejectedSpace,
                  fix := FixEdit.remove op.rend cl.rstart }])
    ∧ scanStep o (getExceptions o) text tokens (j + 1) cl = some []
    ∧ (∀ (always : Bool) (exc : Exceptions) (t2 : List Char) (l r : Token),
        l.ttype = "Punctuator" → l.value = "(" →
        shouldCloserHaveSpace always exc t2 l r = false
        ∧ shouldCloserRejectSpace always exc t2 l r = false) := by
  have hexc : isOpenerException (getExceptions o) cl = false :=
    openers_no_close_paren o cl hemp h4
  have hhs : shouldOpenerHaveSpace o.always (getExceptions o) text op cl = false := by
    unfold shouldOpenerHaveSpace
    cases o.always <;>
      by_cases hs : isSpaceBetweenTokens text op cl = true <;>
        simp [hs, h3, h4, hexc]
  have hno1 : ¬(o.parenStringException = true ∧ op.ttype = "String") :=
    fun hx => by rw [h1] at hx; exact absurd hx.2 (by decide)
  have hno2 : ¬(o.parenStringException = true ∧ cl.ttype = "String") :=
    fun hx => by rw [h3] at hx; exact absurd hx.2 (by decide)
  have hsip1 : stringInParenAlreadyChecked tokens j op = some false := by
    unfold stringInParenAlreadyChecked sipDisj1 sipDisj2 sipDisj3
    simp [h1, h2, h3, h4, hcl]
  have htb : tokBack? tokens (j + 1) 1 = some op := by
    unfold tokBack?
    rw [if_pos (Nat.le_add_left 1 j)]
    simpa using hop
  have hsip2 : stringInParenAlreadyChecked tokens (j + 1) cl = some false := by
    unfold stringInParenAlreadyChecked sipDisj1 sipDisj2 sipDisj3
    simp [h1, h3, h4, htb]
  have hcs := closer_shortcircuit o.always (getExceptions o) text op cl h1 h2
  refine ⟨?_, ?_, ?_, fun always exc t2 l r ha hb =>
    closer_shortcircuit always exc t2 l r ha hb⟩
  · intro hmode
    have hrej : shouldOpenerRejectSpace o.always (getExceptions o) text op cl = false := by
      unfold shouldOpenerRejectSpace
      rcases hmode with hal | hsp | hsl
      · rw [hal]
        by_cases hl : cl.ttype = "Line" <;>
          by_cases hsl2 : isTokenOnSameLine op cl = true <;>
            by_cases hs : isSpaceBetweenTokens text op cl = true <;>
              simp [hl, hsl2, hs, hexc]
      · simp [hsp]
      · simp [hsl]
    unfold scanStep
    rw [if_neg hno1]
    unfold scanStepRest
    cases hps : o.parenStringException <;>
      simp [hps, hsip1, h1, h2, hcl, hhs, hrej]
  · intro hal hsp hsl
    have hrej : shouldOpenerRejectSpace o.always (getExceptions o) text op cl = true := by
      unfold shouldOpenerRejectSpace
      rw [hal]
      simp [h3, hsl, hsp, hexc]
    unfold scanStep
    rw [if_neg hno1]
    unfold scanStepRest
    cases hps : o.parenStringException <;>
      simp [hps, hsip1, h1, h2, hcl, hhs, hrej]
  · unfold scanStep
    rw [if_neg hno2]
    unfold scanStepRest
    cases hps : o.parenStringException <;>
      simp [hps, hsip2, h3, h4, htb, hcs.1, hcs.2]

/-- Witness for C5: in the empty tight pair under Mode Never the steps at
both parens produce no diagnostic, and in the spaced same-line empty pair
under Mode Never the step at the opener produces exactly the
rejected-space diagnostic. -/
theorem claim5_witness :
    scanStep oNever (getExceptions oNever) textPairTight toksPairTight 0
      tokPTOpen = some []
    ∧ scanStep oNever (getExceptions oNever) textPairTight toksPairTight 1
      tokPTClose = some []
    ∧ scanStep oNever (getExceptions oNever) textEmptySpace toksEmptySpace 1
      tokESOpen =
      some [{ locLine := 1, locCol := 1, kind := MessageKind.rejectedSpace,
              fix := FixEdit.remove 2 3 }] :=
  ⟨(claim5_empty_pair oNever textPairTight toksPairTight 0 tokPTOpen tokPTClose
      rfl rfl rfl rfl rfl rfl rfl).1 (Or.inr (Or.inl (by decide))),
   (claim5_empty_pair oNever textPairTight toksPairTight 0 tokPTOpen tokPTClose
      rfl rfl rfl rfl rfl rfl rfl).2.2.1,
   (claim5_empty_pair oNever textEmptySpace toksEmptySpace 1 tokESOpen tokESClose
      rfl rfl rfl rfl rfl rfl rfl).2.1 rfl (by decide) (by decide)⟩

/-- C10.  The line-comment guard applies only to line comments: an
opening paren followed on the same line by a block comment with a space
between them, under Mode Never with no exceptions, yields a
rejected-space diagnostic whose fix deletes exactly that space; the
diagnostic is among the scan's reports whenever the scan completes. -/
theorem claim10_block_comment (o : Options) (text : List Char)
    (tokens : List Token) (j : Nat) (op bc : Token)
    (hal : o.always = false)
    (hbr : o.braceException = false) (hbk : o.bracketException = false)
    (hpa : o.parenException = false) (hps : o.parenStringException = false)
    (hem : o.empty = false)
    (hop : tokens[j]? = some op) (hbc : tokens[j + 1]? = some bc)
    (h1 : op.ttype = "Punctuator") (h2 : op.value = "(")
    (h3 : bc.ttype = "Block")
    (hsl : isTokenOnSameLine op bc = true)
    (hsp : isSpaceBetweenTokens text op bc = true) :
    scanStep o (getExceptions o) text tokens j op =
      some [{ locLine := op.lineStart, locCol := op.colStart,
              kind := MessageKind.rejectedSpace,
              fix := FixEdit.remove op.rend bc.rstart }]
    ∧ ((runScan o text tokens).crashed = false →
        { locLine := op.lineStart, locCol := op.colStart,
          kind := MessageKind.rejectedSpace,
          fix := FixEdit.remove op.rend bc.rstart } ∈ (runScan o text tokens).diags) := by
  have hexc : isOpenerException (getExceptions o) bc = false := by
    unfold isOpenerException
    simp [h3]
  have hhs : shouldOpenerHaveSpace o.always (getExceptions o) text op bc = false := by
    unfold shouldOpenerHaveSpace
    simp [hsp]
  have hrej : shouldOpenerRejectSpace o.always (getExceptions o) text op bc = true := by
    unfold shouldOpenerRejectSpace
    rw [hal]
    simp [h3, hsl, hsp, hexc]
  have hstep : scanStep o (getExceptions o) text tokens j op =
      some [{ locLine := op.lineStart, locCol := op.colStart,
              kind := MessageKind.rejectedSpace,
              fix := FixEdit.remove op.rend bc.rstart }] := by
    unfold scanStep
    rw [if_neg (fun hx => by rw [hps] at hx; exact Bool.noConfusion hx.1)]
    unfold scanStepRest
    simp [hps, h1, h2, hbc, hhs, hrej]
  refine ⟨hstep, fun hc => ?_⟩
  exact runScan_reports o text tokens j op _ hop hstep hc _ (by simp)

/-- Witness for C10: the block comment scenario under Mode Never, where
the step at the opener reports the rejected space and the report is among
the scan's diagnostics. -/
theorem claim10_witness :
    scanStep oNever (getExceptions oNever) textBlockCmt toksBlockCmt 1
      tokBCOpen =
      some [{ locLine := 1, locCol := 1, kind := MessageKind.rejectedSpace,
              fix := FixEdit.remove 2 3 }]
    ∧ { locLine := 1, locCol := 1, kind := MessageKind.rejectedSpace,
        fix := FixEdit.remove 2 3 } ∈
        (runScan oNever textBlockCmt toksBlockCmt).diags := by
  have h := claim10_block_comment oNever textBlockCmt toksBlockCmt 1
    tokBCOpen tokBCBlock rfl rfl rfl rfl rfl rfl (by decide) (by decide)
    rfl rfl rfl (by decide) (by decide)
  exact ⟨h.1, h.2 (by decide)⟩

/-- Left-gap diagnostic of the string-in-paren check: emitted whenever
whitespace lies between the opening paren and the string. -/
theorem checkStringInParen_left (text : List Char) (prev tok next : Token)
    (hs1 : isSpaceBetweenTokens text prev tok = true) :
    { locLine := tok.lineStart, locCol := tok.colStart,
      kind := MessageKind.unnecessaryStringSpace,
      fix := FixEdit.remove prev.rend tok.rstart } ∈
      checkStringInParen text prev tok next := by
  unfold checkStringInParen
  rw [if_pos hs1]
  exact List.mem_append_left _ (by simp)

/-- Right-gap diagnostic of the string-in-paren check: emitted whenever
whitespace lies between the string and the closing paren. -/
theorem checkStringInParen_right (text : List Char) (prev tok next : Token)
    (hs2 : isSpaceBetweenTokens text tok next = true) :
    { locLine := next.lineStart, locCol := next.colStart,
      kind := MessageKind.unnecessaryStringSpace,
      fix := FixEdit.remove tok.rend next.rstart } ∈
      checkStringInParen text prev tok next := by
  unfold checkStringInParen
  refine List.mem_append_right _ ?_
  rw [if_pos hs2]
  simp

/-- Every diagnostic of the string-in-paren check is one of the two gap
diagnostics. -/
theorem checkStringInParen_cases (text : List Char) (prev tok next : Token) :
    ∀ d ∈ checkStringInParen text prev tok next,
      d = { locLine := tok.lineStart, locCol := tok.colStart,
            kind := MessageKind.unnecessaryStringSpace,
            fix := FixEdit.remove prev.rend tok.rstart }
      ∨ d = { locLine := next.lineStart, locCol := next.colStart,
              kind := MessageKind.unnecessaryStringSpace,
              fix := FixEdit.remove tok.rend next.rstart } := by
  intro d hd
  unfold checkStringInParen at hd
  rcases List.mem_append.mp hd with h | h
  · left
    split at h
    · simpa using h
    · cases h
  · right
    split at h
    · simpa using h
    · cases h

/-- Without whitespace in either gap the string-in-paren check emits
nothing. -/
theorem checkStringInParen_nil (text : List Char) (prev tok next : Token)
    (hs1 : isSpaceBetweenTokens text prev tok = false)
    (hs2 : isSpaceBetweenTokens text tok next = false) :
    checkStringInParen text prev tok next = [] := by
  unfold checkStringInParen
  simp [hs1, hs2]

/-- C2.  With the lone-string exception enabled, a `(`, String, `)`
triple is handled by the string check alone under both modes: the step at
the string emits exactly the per-gap unnecessary-space diagnostics
(each fixing by deleting exactly its gap), the steps at the two parens
emit nothing, every diagnostic of the triple is of the
unnecessary-string-space kind, whitespace-free gaps yield nothing, and
the triple's diagnostics are among the scan's reports whenever the scan
completes. -/
theorem claim2_string_triple (o : Options) (text : List Char)
    (tokens : List Token) (j : Nat) (prev tok next : Token)
    (hpse : o.parenStringException = true)
    (hprev : tokens[j]? = some prev)
    (htok : tokens[j + 1]? = some tok)
    (hnext : tokens[j + 2]? = some next)
    (h1 : prev.ttype = "Punctuator") (h2 : prev.value = "(")
    (h3 : tok.ttype = "String")
    (h4 : next.ttype = "Punctuator") (h5 : next.value = ")") :
    scanStep o (getExceptions o) text tokens (j + 1) tok =
      some (checkStringInParen text prev tok next)
    ∧ scanStep o (getExceptions o) text tokens j prev = some []
    ∧ scanStep o (getExceptions o) text tokens (j + 2) next = some []
    ∧ (isSpaceBetweenTokens text prev tok = true →
        { locLine := tok.lineStart, locCol := tok.colStart,
          kind := MessageKind.unnecessaryStringSpace,
          fix := FixEdit.remove prev.rend tok.rstart } ∈
          checkStringInParen text prev tok next)
    ∧ (isSpaceBetweenTokens text tok next = true →
        { locLine := next.lineStart, locCol := next.colStart,
          kind := MessageKind.unnecessaryStringSpace,
          fix := FixEdit.remove tok.rend next.rstart } ∈
          checkStringInParen text prev tok next)
    ∧ (∀ d ∈ checkStringInParen text prev tok next,
        d.kind = MessageKind.unnecessaryStringSpace)
    ∧ (isSpaceBetweenTokens text prev tok = false →
        isSpaceBetweenTokens text tok next = false →
        checkStringInParen text prev tok next = [])
    ∧ ((runScan o text tokens).crashed = false →
        ∀ d ∈ checkStringInParen text prev tok next,
          d ∈ (runScan o text tokens).diags) := by
  have htb1 : tokBack? tokens (j + 1) 1 = some prev := by
    unfold tokBack?
    rw [if_pos (Nat.le_add_left 1 j)]
    simpa using hprev
  have hnext2 : tokens[j + 1 + 1]? = some next := hnext
  have htb2 : tokBack? tokens (j + 2) 1 = some tok := by
    unfold tokBack?
    rw [if_pos (by omega : 1 ≤ j + 2)]
    have he : j + 2 - 1 = j + 1 := by omega
    rw [he]
    exact htok
  have htb2b : tokBack? tokens (j + 2) 2 = some prev := by
    unfold tokBack?
    rw [if_pos (by omega : 2 ≤ j + 2)]
    have he : j + 2 - 2 = j := by omega
    rw [he]
    exact hprev
  have hstep1 : scanStep o (getExceptions o) text tokens (j + 1) tok =
      some (checkStringInParen text prev tok next) := by
    unfold scanStep
    rw [if_pos ⟨hpse, h3⟩]
    simp [htb1, h1, hnext2, h4, h2, h5]
  have hsipP : stringInParenAlreadyChecked tokens j prev = some true := by
    unfold stringInParenAlreadyChecked sipDisj1
    simp [h1, h2, htok, h3, hnext, h5]
  have hstep0 : scanStep o (getExceptions o) text tokens j prev = some [] := by
    unfold scanStep
    rw [if_neg (fun hx => by rw [h1] at hx; exact absurd hx.2 (by decide))]
    unfold scanStepRest
    simp [hpse, hsipP]
  have hsipN : stringInParenAlreadyChecked tokens (j + 2) next = some true := by
    unfold stringInParenAlreadyChecked sipDisj1 sipDisj2 sipDisj3
    simp [h4, h5, htb2, h3, htb2b, h1, h2]
  have hstep2 : scanStep o (getExceptions o) text tokens (j + 2) next = some [] := by
    unfold scanStep
    rw [if_neg (fun hx => by rw [h4] at hx; exact absurd hx.2 (by decide))]
    unfold scanStepRest
    simp [hpse, hsipN]
  refine ⟨hstep1, hstep0, hstep2,
    checkStringInParen_left text prev tok next,
    checkStringInParen_right text prev tok next,
    fun d hd => ?_,
    checkStringInParen_nil text prev tok next,
    fun hc => runScan_reports o text tokens (j + 1) tok _ htok hstep1 hc⟩
  rcases checkStringInParen_cases text prev tok next d hd with rfl | rfl <;> rfl

/-- Witness for C2: the spaced lone-string scenario under Mode Never,
where the string step emits the two gap diagnostics and the paren steps
emit nothing. -/
theorem claim2_witness :
    scanStep oSTRnever (getExceptions oSTRnever) textFooSpaced toksFooSpaced 1
      tokFSStr = some (checkStringInParen textFooSpaced tokFSOpen tokFSStr tokFSClose)
    ∧ scanStep oSTRnever (getExceptions oSTRnever) textFooSpaced toksFooSpaced 0
      tokFSOpen = some []
    ∧ scanStep oSTRnever (getExceptions oSTRnever) textFooSpaced toksFooSpaced 2
      tokFSClose = some []
    ∧ { locLine := 1, locCol := 2, kind := MessageKind.unnecessaryStringSpace,
        fix := FixEdit.remove 1 2 } ∈
        checkStringInParen textFooSpaced tokFSOpen tokFSStr tokFSClose
    ∧ { locLine := 1, locCol := 8, kind := MessageKind.unnecessaryStringSpace,
        fix := FixEdit.remove 7 8 } ∈
        checkStringInParen textFooSpaced tokFSOpen tokFSStr tokFSClose := by
  have h := claim2_string_triple oSTRnever textFooSpaced toksFooSpaced 0
    tokFSOpen tokFSStr tokFSClose rfl rfl rfl rfl rfl rfl rfl rfl rfl
  exact ⟨h.1, h.2.1, h.2.2.1, h.2.2.2.1 (by decide), h.2.2.2.2.1 (by decide)⟩

/-- C9 counterexample.  The claim as stated is false on the code: in the
spaced lone-string scenario the two diagnostics are reported at columns 2
and 8, the start positions of the string and of the closing paren (the
gaps' right-hand tokens), not at the gaps' start locations (columns 1
and 7, the end positions of the left-hand tokens). -/
theorem claim9_counterexample :
    (runScan oSTRnever textFooSpaced toksFooSpaced).diags.map
        (fun d => (d.locLine, d.locCol)) = [(1, 2), (1, 8)]
    ∧ (tokFSOpen.lineEnd, tokFSOpen.colEnd) = (1, 1)
    ∧ (tokFSStr.lineEnd, tokFSStr.colEnd) = (1, 7)
    ∧ (((1, 2) : Nat × Nat)) ≠ ((1, 1) : Nat × Nat)
    ∧ (((1, 8) : Nat × Nat)) ≠ ((1, 7) : Nat × Nat) := by decide

/-- C9 as amended.  Each gap diagnostic of the string-in-paren check is
reported at the start location of the token on the gap's right side (the
gap's end), and its fix deletes exactly the gap's character range, from
the left token's end offset to the right token's start offset; no other
diagnostics arise from the check. -/
theorem claim9_gap_report (text : List Char) (prev tok next : Token) :
    (isSpaceBetweenTokens text prev tok = true →
      { locLine := tok.lineStart, locCol := tok.colStart,
        kind := MessageKind.unnecessaryStringSpace,
        fix := FixEdit.remove prev.rend tok.rstart } ∈
        checkStringInParen text prev tok next)
    ∧ (isSpaceBetweenTokens text tok next = true →
      { locLine := next.lineStart, locCol := next.colStart,
        kind := MessageKind.unnecessaryStringSpace,
        fix := FixEdit.remove tok.rend next.rstart } ∈
        checkStringInParen text prev tok next)
    ∧ (∀ d ∈ checkStringInParen text prev tok next,
        d = { locLine := tok.lineStart, locCol := tok.colStart,
              kind := MessageKind.unnecessaryStringSpace,
              fix := FixEdit.remove prev.rend tok.rstart }
        ∨ d = { locLine := next.lineStart, locCol := next.colStart,
                kind := MessageKind.unnecessaryStringSpace,
                fix := FixEdit.remove tok.rend next.rstart }) :=
  ⟨checkStringInParen_left text prev tok next,
   checkStringInParen_right text prev tok next,
   checkStringInParen_cases text prev tok next⟩

/-- Witness for C9: in the spaced lone-string scenario both gap
diagnostics are present, at the right-hand tokens' start locations with
the exact gap ranges as fixes. -/
theorem claim9_witness :
    { locLine := 1, locCol := 2, kind := MessageKind.unnecessaryStringSpace,
      fix := FixEdit.remove 1 2 } ∈
      checkStringInParen textFooSpaced tokFSOpen tokFSStr tokFSClose
    ∧ { locLine := 1, locCol := 8, kind := MessageKind.unnecessaryStringSpace,
        fix := FixEdit.remove 7 8 } ∈
        checkStringInParen textFooSpaced tokFSOpen tokFSStr tokFSClose :=
  ⟨(claim9_gap_report textFooSpaced tokFSOpen tokFSStr tokFSClose).1 (by decide),
   (claim9_gap_report textFooSpaced tokFSOpen tokFSStr tokFSClose).2.1 (by decide)⟩

/-- One round of the §8 round-trip check: the fixes of one scan, applied
to the source text, give the expected fixed text, and a scan of the fixed
text with its token stream yields no diagnostics and no crash. -/
def roundTripOk (o : Options) (text : List Char) (toks : List Token)
    (ftext : List Char) (ftoks : List Token) : Bool :=
  decide (applyFixes text ((runScan o text toks).diags.map (fun d => d.fix)) = ftext)
    && decide (runScan o ftext ftoks = { diags := [], crashed := false })

/-- C8.  The fix pass reaches a fixed point in one round on every §8
scenario: empty pairs (tight and spaced) under both modes, the identifier
pair under the mode that changes it, the nested pair under Always with
the paren exception, the lone-string pairs under both modes with the
string exception, the line-comment scenario, and the newline scenario. -/
theorem claim8_fix_roundtrip :
    roundTripOk oAlways textPairTight toksPairTight textPairTight toksPairTight = true
    ∧ roundTripOk oNever textPairTight toksPairTight textPairTight toksPairTight = true
    ∧ roundTripOk oAlways textPairSpace toksPairSpace textPairSpace toksPairSpace = true
    ∧ roundTripOk oNever textPairSpace toksPairSpace textPairTight toksPairTight = true
    ∧ roundTripOk oAlways textIdTight toksIdTight textIdSpace toksIdSpace = true
    ∧ roundTripOk oNever textIdSpace toksIdSpace textIdTight toksIdTight = true
    ∧ roundTripOk oAlwaysParen textNested toksNested textNestedFixed toksNestedFixed = true
    ∧ roundTripOk oSTRalways textFooTight toksFooTight textFooTight toksFooTight = true
    ∧ roundTripOk oSTRnever textFooTight toksFooTight textFooTight toksFooTight = true
    ∧ roundTripOk oSTRalways textFooSpaced toksFooSpaced textFooTight toksFooTight = true
    ∧ roundTripOk oSTRnever textFooSpaced toksFooSpaced textFooTight toksFooTight = true
    ∧ roundTripOk oNever textLineCmt toksLineCmt textLineCmtFixed toksLineCmtFixed = true
    ∧ roundTripOk oNever textNewline toksNewline textNewlineFixed toksNewlineFixed = true := by
  decide

end NoSpaceInParens
